import Mathlib

/-!
Verification of the command gate in `cluster-hooks/block-dangerous-git.py`.

The script is a PreToolUse hook: it reads a JSON request from stdin, and,
when the environment variable `ZEROSHOT_WORKTREE` holds `"1"` and the tool
is `Bash`, scans the proposed shell command against a fixed ordered table of
Python regular expressions (`DANGEROUS_PATTERNS`).  The first matching rule
produces a deny verdict whose message embeds the rule's reason and safe
alternative; otherwise the hook exits silently.

The embedding below models:
* the fragment of Python's `re` used by the eleven patterns
  (literals, `\s`, `\S`, character classes, `+`, `*`, `\b`, `$`) as a small
  backtracking matcher `runRE` / `reSearch`, with `\s` and `\w` given their
  Unicode (non-`re.ASCII`) meaning,
* JSON values (`JValue`) and Python's attribute/`dict.get` behaviour,
  with `Except` capturing uncaught Python exceptions
  (`AttributeError` from `.get` on a non-dict, `TypeError` from
  `re.search` on a non-string), and
* the whole `main` control flow as `mainGate`.
-/

set_option maxRecDepth 40000

/-- Python `\s` for `str` patterns (the script passes no `re.ASCII` flag):
the exact set of code points Python's `re` counts as whitespace — the six
ASCII ones, the separators U+001C-U+001F, and the Unicode spaces U+0085,
U+00A0, U+1680, U+2000-U+200A, U+2028, U+2029, U+202F, U+205F, U+3000. -/
def isPySpace (c : Char) : Bool :=
  c == ' ' || c == '\t' || c == '\n' || c == '\r' || c == '\x0b' || c == '\x0c' ||
  (decide (0x1c ≤ c.toNat) && decide (c.toNat ≤ 0x1f)) ||
  c.toNat == 0x85 || c.toNat == 0xa0 || c.toNat == 0x1680 ||
  (decide (0x2000 ≤ c.toNat) && decide (c.toNat ≤ 0x200a)) ||
  c.toNat == 0x2028 || c.toNat == 0x2029 || c.toNat == 0x202f ||
  c.toNat == 0x205f || c.toNat == 0x3000

/-- The non-ASCII code points matched by Python's `\w` for `str` patterns,
as closed ranges of code points: the Unicode alphanumerics, read off
Python 3.11's `re` module (Unicode 14). -/
def wordRangesHi : List (Nat × Nat) :=
  [(0xaa, 0xaa), (0xb2, 0xb3), (0xb5, 0xb5), (0xb9, 0xba), (0xbc, 0xbe), (0xc0, 0xd6),
   (0xd8, 0xf6), (0xf8, 0x2c1), (0x2c6, 0x2d1), (0x2e0, 0x2e4), (0x2ec, 0x2ec), (0x2ee, 0x2ee),
   (0x370, 0x374), (0x376, 0x377), (0x37a, 0x37d), (0x37f, 0x37f), (0x386, 0x386), (0x388, 0x38a),
   (0x38c, 0x38c), (0x38e, 0x3a1), (0x3a3, 0x3f5), (0x3f7, 0x481), (0x48a, 0x52f), (0x531, 0x556),
   (0x559, 0x559), (0x560, 0x588), (0x5d0, 0x5ea), (0x5ef, 0x5f2), (0x620, 0x64a), (0x660, 0x669),
   (0x66e, 0x66f), (0x671, 0x6d3), (0x6d5, 0x6d5), (0x6e5, 0x6e6), (0x6ee, 0x6fc), (0x6ff, 0x6ff),
   (0x710, 0x710), (0x712, 0x72f), (0x74d, 0x7a5), (0x7b1, 0x7b1), (0x7c0, 0x7ea), (0x7f4, 0x7f5),
   (0x7fa, 0x7fa), (0x800, 0x815), (0x81a, 0x81a), (0x824, 0x824), (0x828, 0x828), (0x840, 0x858),
   (0x860, 0x86a), (0x870, 0x887), (0x889, 0x88e), (0x8a0, 0x8c9), (0x904, 0x939), (0x93d, 0x93d),
   (0x950, 0x950), (0x958, 0x961), (0x966, 0x96f), (0x971, 0x980), (0x985, 0x98c), (0x98f, 0x990),
   (0x993, 0x9a8), (0x9aa, 0x9b0), (0x9b2, 0x9b2), (0x9b6, 0x9b9), (0x9bd, 0x9bd), (0x9ce, 0x9ce),
   (0x9dc, 0x9dd), (0x9df, 0x9e1), (0x9e6, 0x9f1), (0x9f4, 0x9f9), (0x9fc, 0x9fc), (0xa05, 0xa0a),
   (0xa0f, 0xa10), (0xa13, 0xa28), (0xa2a, 0xa30), (0xa32, 0xa33), (0xa35, 0xa36), (0xa38, 0xa39),
   (0xa59, 0xa5c), (0xa5e, 0xa5e), (0xa66, 0xa6f), (0xa72, 0xa74), (0xa85, 0xa8d), (0xa8f, 0xa91),
   (0xa93, 0xaa8), (0xaaa, 0xab0), (0xab2, 0xab3), (0xab5, 0xab9), (0xabd, 0xabd), (0xad0, 0xad0),
   (0xae0, 0xae1), (0xae6, 0xaef), (0xaf9, 0xaf9), (0xb05, 0xb0c), (0xb0f, 0xb10), (0xb13, 0xb28),
   (0xb2a, 0xb30), (0xb32, 0xb33), (0xb35, 0xb39), (0xb3d, 0xb3d), (0xb5c, 0xb5d), (0xb5f, 0xb61),
   (0xb66, 0xb6f), (0xb71, 0xb77), (0xb83, 0xb83), (0xb85, 0xb8a), (0xb8e, 0xb90), (0xb92, 0xb95),
   (0xb99, 0xb9a), (0xb9c, 0xb9c), (0xb9e, 0xb9f), (0xba3, 0xba4), (0xba8, 0xbaa), (0xbae, 0xbb9),
   (0xbd0, 0xbd0), (0xbe6, 0xbf2), (0xc05, 0xc0c), (0xc0e, 0xc10), (0xc12, 0xc28), (0xc2a, 0xc39),
   (0xc3d, 0xc3d), (0xc58, 0xc5a), (0xc5d, 0xc5d), (0xc60, 0xc61), (0xc66, 0xc6f), (0xc78, 0xc7e),
   (0xc80, 0xc80), (0xc85, 0xc8c), (0xc8e, 0xc90), (0xc92, 0xca8), (0xcaa, 0xcb3), (0xcb5, 0xcb9),
   (0xcbd, 0xcbd), (0xcdd, 0xcde), (0xce0, 0xce1), (0xce6, 0xcef), (0xcf1, 0xcf2), (0xd04, 0xd0c),
   (0xd0e, 0xd10), (0xd12, 0xd3a), (0xd3d, 0xd3d), (0xd4e, 0xd4e), (0xd54, 0xd56), (0xd58, 0xd61),
   (0xd66, 0xd78), (0xd7a, 0xd7f), (0xd85, 0xd96), (0xd9a, 0xdb1), (0xdb3, 0xdbb), (0xdbd, 0xdbd),
   (0xdc0, 0xdc6), (0xde6, 0xdef), (0xe01, 0xe30), (0xe32, 0xe33), (0xe40, 0xe46), (0xe50, 0xe59),
   (0xe81, 0xe82), (0xe84, 0xe84), (0xe86, 0xe8a), (0xe8c, 0xea3), (0xea5, 0xea5), (0xea7, 0xeb0),
   (0xeb2, 0xeb3), (0xebd, 0xebd), (0xec0, 0xec4), (0xec6, 0xec6), (0xed0, 0xed9), (0xedc, 0xedf),
   (0xf00, 0xf00), (0xf20, 0xf33), (0xf40, 0xf47), (0xf49, 0xf6c), (0xf88, 0xf8c), (0x1000, 0x102a),
   (0x103f, 0x1049), (0x1050, 0x1055), (0x105a, 0x105d), (0x1061, 0x1061), (0x1065, 0x1066), (0x106e, 0x1070),
   (0x1075, 0x1081), (0x108e, 0x108e), (0x1090, 0x1099), (0x10a0, 0x10c5), (0x10c7, 0x10c7), (0x10cd, 0x10cd),
   (0x10d0, 0x10fa), (0x10fc, 0x1248), (0x124a, 0x124d), (0x1250, 0x1256), (0x1258, 0x1258), (0x125a, 0x125d),
   (0x1260, 0x1288), (0x128a, 0x128d), (0x1290, 0x12b0), (0x12b2, 0x12b5), (0x12b8, 0x12be), (0x12c0, 0x12c0),
   (0x12c2, 0x12c5), (0x12c8, 0x12d6), (0x12d8, 0x1310), (0x1312, 0x1315), (0x1318, 0x135a), (0x1369, 0x137c),
   (0x1380, 0x138f), (0x13a0, 0x13f5), (0x13f8, 0x13fd), (0x1401, 0x166c), (0x166f, 0x167f), (0x1681, 0x169a),
   (0x16a0, 0x16ea), (0x16ee, 0x16f8), (0x1700, 0x1711), (0x171f, 0x1731), (0x1740, 0x1751), (0x1760, 0x176c),
   (0x176e, 0x1770), (0x1780, 0x17b3), (0x17d7, 0x17d7), (0x17dc, 0x17dc), (0x17e0, 0x17e9), (0x17f0, 0x17f9),
   (0x1810, 0x1819), (0x1820, 0x1878), (0x1880, 0x1884), (0x1887, 0x18a8), (0x18aa, 0x18aa), (0x18b0, 0x18f5),
   (0x1900, 0x191e), (0x1946, 0x196d), (0x1970, 0x1974), (0x1980, 0x19ab), (0x19b0, 0x19c9), (0x19d0, 0x19da),
   (0x1a00, 0x1a16), (0x1a20, 0x1a54), (0x1a80, 0x1a89), (0x1a90, 0x1a99), (0x1aa7, 0x1aa7), (0x1b05, 0x1b33),
   (0x1b45, 0x1b4c), (0x1b50, 0x1b59), (0x1b83, 0x1ba0), (0x1bae, 0x1be5), (0x1c00, 0x1c23), (0x1c40, 0x1c49),
   (0x1c4d, 0x1c7d), (0x1c80, 0x1c88), (0x1c90, 0x1cba), (0x1cbd, 0x1cbf), (0x1ce9, 0x1cec), (0x1cee, 0x1cf3),
   (0x1cf5, 0x1cf6), (0x1cfa, 0x1cfa), (0x1d00, 0x1dbf), (0x1e00, 0x1f15), (0x1f18, 0x1f1d), (0x1f20, 0x1f45),
   (0x1f48, 0x1f4d), (0x1f50, 0x1f57), (0x1f59, 0x1f59), (0x1f5b, 0x1f5b), (0x1f5d, 0x1f5d), (0x1f5f, 0x1f7d),
   (0x1f80, 0x1fb4), (0x1fb6, 0x1fbc), (0x1fbe, 0x1fbe), (0x1fc2, 0x1fc4), (0x1fc6, 0x1fcc), (0x1fd0, 0x1fd3),
   (0x1fd6, 0x1fdb), (0x1fe0, 0x1fec), (0x1ff2, 0x1ff4), (0x1ff6, 0x1ffc), (0x2070, 0x2071), (0x2074, 0x2079),
   (0x207f, 0x2089), (0x2090, 0x209c), (0x2102, 0x2102), (0x2107, 0x2107), (0x210a, 0x2113), (0x2115, 0x2115),
   (0x2119, 0x211d), (0x2124, 0x2124), (0x2126, 0x2126), (0x2128, 0x2128), (0x212a, 0x212d), (0x212f, 0x2139),
   (0x213c, 0x213f), (0x2145, 0x2149), (0x214e, 0x214e), (0x2150, 0x2189), (0x2460, 0x249b), (0x24ea, 0x24ff),
   (0x2776, 0x2793), (0x2c00, 0x2ce4), (0x2ceb, 0x2cee), (0x2cf2, 0x2cf3), (0x2cfd, 0x2cfd), (0x2d00, 0x2d25),
   (0x2d27, 0x2d27), (0x2d2d, 0x2d2d), (0x2d30, 0x2d67), (0x2d6f, 0x2d6f), (0x2d80, 0x2d96), (0x2da0, 0x2da6),
   (0x2da8, 0x2dae), (0x2db0, 0x2db6), (0x2db8, 0x2dbe), (0x2dc0, 0x2dc6), (0x2dc8, 0x2dce), (0x2dd0, 0x2dd6),
   (0x2dd8, 0x2dde), (0x2e2f, 0x2e2f), (0x3005, 0x3007), (0x3021, 0x3029), (0x3031, 0x3035), (0x3038, 0x303c),
   (0x3041, 0x3096), (0x309d, 0x309f), (0x30a1, 0x30fa), (0x30fc, 0x30ff), (0x3105, 0x312f), (0x3131, 0x318e),
   (0x3192, 0x3195), (0x31a0, 0x31bf), (0x31f0, 0x31ff), (0x3220, 0x3229), (0x3248, 0x324f), (0x3251, 0x325f),
   (0x3280, 0x3289), (0x32b1, 0x32bf), (0x3400, 0x4dbf), (0x4e00, 0xa48c), (0xa4d0, 0xa4fd), (0xa500, 0xa60c),
   (0xa610, 0xa62b), (0xa640, 0xa66e), (0xa67f, 0xa69d), (0xa6a0, 0xa6ef), (0xa717, 0xa71f), (0xa722, 0xa788),
   (0xa78b, 0xa7ca), (0xa7d0, 0xa7d1), (0xa7d3, 0xa7d3), (0xa7d5, 0xa7d9), (0xa7f2, 0xa801), (0xa803, 0xa805),
   (0xa807, 0xa80a), (0xa80c, 0xa822), (0xa830, 0xa835), (0xa840, 0xa873), (0xa882, 0xa8b3), (0xa8d0, 0xa8d9),
   (0xa8f2, 0xa8f7), (0xa8fb, 0xa8fb), (0xa8fd, 0xa8fe), (0xa900, 0xa925), (0xa930, 0xa946), (0xa960, 0xa97c),
   (0xa984, 0xa9b2), (0xa9cf, 0xa9d9), (0xa9e0, 0xa9e4), (0xa9e6, 0xa9fe), (0xaa00, 0xaa28), (0xaa40, 0xaa42),
   (0xaa44, 0xaa4b), (0xaa50, 0xaa59), (0xaa60, 0xaa76), (0xaa7a, 0xaa7a), (0xaa7e, 0xaaaf), (0xaab1, 0xaab1),
   (0xaab5, 0xaab6), (0xaab9, 0xaabd), (0xaac0, 0xaac0), (0xaac2, 0xaac2), (0xaadb, 0xaadd), (0xaae0, 0xaaea),
   (0xaaf2, 0xaaf4), (0xab01, 0xab06), (0xab09, 0xab0e), (0xab11, 0xab16), (0xab20, 0xab26), (0xab28, 0xab2e),
   (0xab30, 0xab5a), (0xab5c, 0xab69), (0xab70, 0xabe2), (0xabf0, 0xabf9), (0xac00, 0xd7a3), (0xd7b0, 0xd7c6),
   (0xd7cb, 0xd7fb), (0xf900, 0xfa6d), (0xfa70, 0xfad9), (0xfb00, 0xfb06), (0xfb13, 0xfb17), (0xfb1d, 0xfb1d),
   (0xfb1f, 0xfb28), (0xfb2a, 0xfb36), (0xfb38, 0xfb3c), (0xfb3e, 0xfb3e), (0xfb40, 0xfb41), (0xfb43, 0xfb44),
   (0xfb46, 0xfbb1), (0xfbd3, 0xfd3d), (0xfd50, 0xfd8f), (0xfd92, 0xfdc7), (0xfdf0, 0xfdfb), (0xfe70, 0xfe74),
   (0xfe76, 0xfefc), (0xff10, 0xff19), (0xff21, 0xff3a), (0xff41, 0xff5a), (0xff66, 0xffbe), (0xffc2, 0xffc7),
   (0xffca, 0xffcf), (0xffd2, 0xffd7), (0xffda, 0xffdc), (0x10000, 0x1000b), (0x1000d, 0x10026), (0x10028, 0x1003a),
   (0x1003c, 0x1003d), (0x1003f, 0x1004d), (0x10050, 0x1005d), (0x10080, 0x100fa), (0x10107, 0x10133), (0x10140, 0x10178),
   (0x1018a, 0x1018b), (0x10280, 0x1029c), (0x102a0, 0x102d0), (0x102e1, 0x102fb), (0x10300, 0x10323), (0x1032d, 0x1034a),
   (0x10350, 0x10375), (0x10380, 0x1039d), (0x103a0, 0x103c3), (0x103c8, 0x103cf), (0x103d1, 0x103d5), (0x10400, 0x1049d),
   (0x104a0, 0x104a9), (0x104b0, 0x104d3), (0x104d8, 0x104fb), (0x10500, 0x10527), (0x10530, 0x10563), (0x10570, 0x1057a),
   (0x1057c, 0x1058a), (0x1058c, 0x10592), (0x10594, 0x10595), (0x10597, 0x105a1), (0x105a3, 0x105b1), (0x105b3, 0x105b9),
   (0x105bb, 0x105bc), (0x10600, 0x10736), (0x10740, 0x10755), (0x10760, 0x10767), (0x10780, 0x10785), (0x10787, 0x107b0),
   (0x107b2, 0x107ba), (0x10800, 0x10805), (0x10808, 0x10808), (0x1080a, 0x10835), (0x10837, 0x10838), (0x1083c, 0x1083c),
   (0x1083f, 0x10855), (0x10858, 0x10876), (0x10879, 0x1089e), (0x108a7, 0x108af), (0x108e0, 0x108f2), (0x108f4, 0x108f5),
   (0x108fb, 0x1091b), (0x10920, 0x10939), (0x10980, 0x109b7), (0x109bc, 0x109cf), (0x109d2, 0x10a00), (0x10a10, 0x10a13),
   (0x10a15, 0x10a17), (0x10a19, 0x10a35), (0x10a40, 0x10a48), (0x10a60, 0x10a7e), (0x10a80, 0x10a9f), (0x10ac0, 0x10ac7),
   (0x10ac9, 0x10ae4), (0x10aeb, 0x10aef), (0x10b00, 0x10b35), (0x10b40, 0x10b55), (0x10b58, 0x10b72), (0x10b78, 0x10b91),
   (0x10ba9, 0x10baf), (0x10c00, 0x10c48), (0x10c80, 0x10cb2), (0x10cc0, 0x10cf2), (0x10cfa, 0x10d23), (0x10d30, 0x10d39),
   (0x10e60, 0x10e7e), (0x10e80, 0x10ea9), (0x10eb0, 0x10eb1), (0x10f00, 0x10f27), (0x10f30, 0x10f45), (0x10f51, 0x10f54),
   (0x10f70, 0x10f81), (0x10fb0, 0x10fcb), (0x10fe0, 0x10ff6), (0x11003, 0x11037), (0x11052, 0x1106f), (0x11071, 0x11072),
   (0x11075, 0x11075), (0x11083, 0x110af), (0x110d0, 0x110e8), (0x110f0, 0x110f9), (0x11103, 0x11126), (0x11136, 0x1113f),
   (0x11144, 0x11144), (0x11147, 0x11147), (0x11150, 0x11172), (0x11176, 0x11176), (0x11183, 0x111b2), (0x111c1, 0x111c4),
   (0x111d0, 0x111da), (0x111dc, 0x111dc), (0x111e1, 0x111f4), (0x11200, 0x11211), (0x11213, 0x1122b), (0x11280, 0x11286),
   (0x11288, 0x11288), (0x1128a, 0x1128d), (0x1128f, 0x1129d), (0x1129f, 0x112a8), (0x112b0, 0x112de), (0x112f0, 0x112f9),
   (0x11305, 0x1130c), (0x1130f, 0x11310), (0x11313, 0x11328), (0x1132a, 0x11330), (0x11332, 0x11333), (0x11335, 0x11339),
   (0x1133d, 0x1133d), (0x11350, 0x11350), (0x1135d, 0x11361), (0x11400, 0x11434), (0x11447, 0x1144a), (0x11450, 0x11459),
   (0x1145f, 0x11461), (0x11480, 0x114af), (0x114c4, 0x114c5), (0x114c7, 0x114c7), (0x114d0, 0x114d9), (0x11580, 0x115ae),
   (0x115d8, 0x115db), (0x11600, 0x1162f), (0x11644, 0x11644), (0x11650, 0x11659), (0x11680, 0x116aa), (0x116b8, 0x116b8),
   (0x116c0, 0x116c9), (0x11700, 0x1171a), (0x11730, 0x1173b), (0x11740, 0x11746), (0x11800, 0x1182b), (0x118a0, 0x118f2),
   (0x118ff, 0x11906), (0x11909, 0x11909), (0x1190c, 0x11913), (0x11915, 0x11916), (0x11918, 0x1192f), (0x1193f, 0x1193f),
   (0x11941, 0x11941), (0x11950, 0x11959), (0x119a0, 0x119a7), (0x119aa, 0x119d0), (0x119e1, 0x119e1), (0x119e3, 0x119e3),
   (0x11a00, 0x11a00), (0x11a0b, 0x11a32), (0x11a3a, 0x11a3a), (0x11a50, 0x11a50), (0x11a5c, 0x11a89), (0x11a9d, 0x11a9d),
   (0x11ab0, 0x11af8), (0x11c00, 0x11c08), (0x11c0a, 0x11c2e), (0x11c40, 0x11c40), (0x11c50, 0x11c6c), (0x11c72, 0x11c8f),
   (0x11d00, 0x11d06), (0x11d08, 0x11d09), (0x11d0b, 0x11d30), (0x11d46, 0x11d46), (0x11d50, 0x11d59), (0x11d60, 0x11d65),
   (0x11d67, 0x11d68), (0x11d6a, 0x11d89), (0x11d98, 0x11d98), (0x11da0, 0x11da9), (0x11ee0, 0x11ef2), (0x11fb0, 0x11fb0),
   (0x11fc0, 0x11fd4), (0x12000, 0x12399), (0x12400, 0x1246e), (0x12480, 0x12543), (0x12f90, 0x12ff0), (0x13000, 0x1342e),
   (0x14400, 0x14646), (0x16800, 0x16a38), (0x16a40, 0x16a5e), (0x16a60, 0x16a69), (0x16a70, 0x16abe), (0x16ac0, 0x16ac9),
   (0x16ad0, 0x16aed), (0x16b00, 0x16b2f), (0x16b40, 0x16b43), (0x16b50, 0x16b59), (0x16b5b, 0x16b61), (0x16b63, 0x16b77),
   (0x16b7d, 0x16b8f), (0x16e40, 0x16e96), (0x16f00, 0x16f4a), (0x16f50, 0x16f50), (0x16f93, 0x16f9f), (0x16fe0, 0x16fe1),
   (0x16fe3, 0x16fe3), (0x17000, 0x187f7), (0x18800, 0x18cd5), (0x18d00, 0x18d08), (0x1aff0, 0x1aff3), (0x1aff5, 0x1affb),
   (0x1affd, 0x1affe), (0x1b000, 0x1b122), (0x1b150, 0x1b152), (0x1b164, 0x1b167), (0x1b170, 0x1b2fb), (0x1bc00, 0x1bc6a),
   (0x1bc70, 0x1bc7c), (0x1bc80, 0x1bc88), (0x1bc90, 0x1bc99), (0x1d2e0, 0x1d2f3), (0x1d360, 0x1d378), (0x1d400, 0x1d454),
   (0x1d456, 0x1d49c), (0x1d49e, 0x1d49f), (0x1d4a2, 0x1d4a2), (0x1d4a5, 0x1d4a6), (0x1d4a9, 0x1d4ac), (0x1d4ae, 0x1d4b9),
   (0x1d4bb, 0x1d4bb), (0x1d4bd, 0x1d4c3), (0x1d4c5, 0x1d505), (0x1d507, 0x1d50a), (0x1d50d, 0x1d514), (0x1d516, 0x1d51c),
   (0x1d51e, 0x1d539), (0x1d53b, 0x1d53e), (0x1d540, 0x1d544), (0x1d546, 0x1d546), (0x1d54a, 0x1d550), (0x1d552, 0x1d6a5),
   (0x1d6a8, 0x1d6c0), (0x1d6c2, 0x1d6da), (0x1d6dc, 0x1d6fa), (0x1d6fc, 0x1d714), (0x1d716, 0x1d734), (0x1d736, 0x1d74e),
   (0x1d750, 0x1d76e), (0x1d770, 0x1d788), (0x1d78a, 0x1d7a8), (0x1d7aa, 0x1d7c2), (0x1d7c4, 0x1d7cb), (0x1d7ce, 0x1d7ff),
   (0x1df00, 0x1df1e), (0x1e100, 0x1e12c), (0x1e137, 0x1e13d), (0x1e140, 0x1e149), (0x1e14e, 0x1e14e), (0x1e290, 0x1e2ad),
   (0x1e2c0, 0x1e2eb), (0x1e2f0, 0x1e2f9), (0x1e7e0, 0x1e7e6), (0x1e7e8, 0x1e7eb), (0x1e7ed, 0x1e7ee), (0x1e7f0, 0x1e7fe),
   (0x1e800, 0x1e8c4), (0x1e8c7, 0x1e8cf), (0x1e900, 0x1e943), (0x1e94b, 0x1e94b), (0x1e950, 0x1e959), (0x1ec71, 0x1ecab),
   (0x1ecad, 0x1ecaf), (0x1ecb1, 0x1ecb4), (0x1ed01, 0x1ed2d), (0x1ed2f, 0x1ed3d), (0x1ee00, 0x1ee03), (0x1ee05, 0x1ee1f),
   (0x1ee21, 0x1ee22), (0x1ee24, 0x1ee24), (0x1ee27, 0x1ee27), (0x1ee29, 0x1ee32), (0x1ee34, 0x1ee37), (0x1ee39, 0x1ee39),
   (0x1ee3b, 0x1ee3b), (0x1ee42, 0x1ee42), (0x1ee47, 0x1ee47), (0x1ee49, 0x1ee49), (0x1ee4b, 0x1ee4b), (0x1ee4d, 0x1ee4f),
   (0x1ee51, 0x1ee52), (0x1ee54, 0x1ee54), (0x1ee57, 0x1ee57), (0x1ee59, 0x1ee59), (0x1ee5b, 0x1ee5b), (0x1ee5d, 0x1ee5d),
   (0x1ee5f, 0x1ee5f), (0x1ee61, 0x1ee62), (0x1ee64, 0x1ee64), (0x1ee67, 0x1ee6a), (0x1ee6c, 0x1ee72), (0x1ee74, 0x1ee77),
   (0x1ee79, 0x1ee7c), (0x1ee7e, 0x1ee7e), (0x1ee80, 0x1ee89), (0x1ee8b, 0x1ee9b), (0x1eea1, 0x1eea3), (0x1eea5, 0x1eea9),
   (0x1eeab, 0x1eebb), (0x1f100, 0x1f10c), (0x1fbf0, 0x1fbf9), (0x20000, 0x2a6df), (0x2a700, 0x2b738), (0x2b740, 0x2b81d),
   (0x2b820, 0x2cea1), (0x2ceb0, 0x2ebe0), (0x2f800, 0x2fa1d), (0x30000, 0x3134a)]

/-- Python `\w` for `str` patterns (the script passes no `re.ASCII` flag):
ASCII letters, digits and underscore, plus the Unicode alphanumerics of
`wordRangesHi` (this is what `\b` inspects). -/
def isWordChar (c : Char) : Bool :=
  if c.toNat < 128 then c.isAlphanum || c == '_'
  else wordRangesHi.any fun p => decide (p.1 ≤ c.toNat) && decide (c.toNat ≤ p.2)

/-- Word-ness of the character to one side of a position; `none` stands for
the edge of the string, which is non-word. -/
def isWordOpt : Option Char → Bool
  | none => false
  | some c => isWordChar c

/-- Single-character matchers: a literal character, a character class such as
`[fd]`, Python `\s`, and Python `\S`. -/
inductive CC where
  | chr : Char → CC
  | cls : List Char → CC
  | ws : CC
  | nws : CC
deriving DecidableEq

def ccMatch : CC → Char → Bool
  | .chr c, ch => ch == c
  | .cls l, ch => l.contains ch
  | .ws, ch => isPySpace ch
  | .nws, ch => !isPySpace ch

/-- The regex fragment used by `DANGEROUS_PATTERNS`: empty pattern, a
single-character matcher, the word boundary `\b`, the end anchor `$`,
concatenation, and `*` over a single-character matcher (`+` is derived). -/
inductive RE where
  | eps : RE
  | cc : CC → RE
  | wb : RE
  | eos : RE
  | seq : RE → RE → RE
  | star : CC → RE
deriving DecidableEq

/-- Concatenation of literal characters. -/
def litL : List Char → RE
  | [] => .eps
  | c :: cs => .seq (.cc (.chr c)) (litL cs)

/-- A literal string in a pattern. -/
def lit (s : String) : RE := litL s.data

/-- Python `+` over a single-character matcher: one occurrence then `*`. -/
def plusC (c : CC) : RE := .seq (.cc c) (.star c)

/-- Concatenation of a list of pattern pieces. -/
def rcat (l : List RE) : RE := l.foldr .seq .eps

/-- All ways `c*` can consume at least one character from the input.  Each
result records the last consumed character and the remaining input. -/
def starRun (c : CC) : List Char → List (Option Char × List Char)
  | [] => []
  | ch :: rest => if ccMatch c ch then (some ch, rest) :: starRun c rest else []

/-- Backtracking matcher: all states `(previous character, remaining input)`
reachable by matching `r` at the start of the input.  `prev` is the character
just before the current position (`none` at the start of the string); it is
what `\b` inspects. -/
def runRE : RE → Option Char → List Char → List (Option Char × List Char)
  | .eps, prev, l => [(prev, l)]
  | .cc _, _, [] => []
  | .cc c, _, ch :: rest => if ccMatch c ch then [(some ch, rest)] else []
  | .wb, prev, l => if isWordOpt prev != isWordOpt l.head? then [(prev, l)] else []
  | .eos, prev, l => if l = [] ∨ l = ['\n'] then [(prev, l)] else []
  | .seq a b, prev, l => (runRE a prev l).flatMap fun st => runRE b st.1 st.2
  | .star c, prev, l => (prev, l) :: starRun c l

/-- Does `r` match starting exactly at the current position? -/
def matchHere (r : RE) (prev : Option Char) (l : List Char) : Bool :=
  !(runRE r prev l).isEmpty

/-- Does `r` match starting at some position of the input?  `prev` is the
character before the first considered position. -/
def searchFrom (r : RE) : Option Char → List Char → Bool
  | prev, [] => matchHere r prev []
  | prev, c :: rest => matchHere r prev (c :: rest) || searchFrom r (some c) rest

/-- Truth value of Python `re.search(r, s)`. -/
def reSearch (r : RE) (s : String) : Bool := searchFrom r none s.data

/-- `r"\bgit\s+stash\b"`. -/
def pattern_stash : RE := rcat [.wb, lit "git", plusC .ws, lit "stash", .wb]

/-- `r"\bgit\s+checkout\s+--\s+\S+"`. -/
def pattern_checkout_path : RE :=
  rcat [.wb, lit "git", plusC .ws, lit "checkout", plusC .ws, lit "--", plusC .ws, plusC .nws]

/-- `r"\bgit\s+checkout\s+-f\b"`. -/
def pattern_checkout_force : RE :=
  rcat [.wb, lit "git", plusC .ws, lit "checkout", plusC .ws, lit "-f", .wb]

/-- `r"\bgit\s+checkout\s+\.\s*$"`. -/
def pattern_checkout_dot : RE :=
  rcat [.wb, lit "git", plusC .ws, lit "checkout", plusC .ws, lit ".", .star .ws, .eos]

/-- `r"\bgit\s+reset\s+--hard\b"`. -/
def pattern_reset_hard : RE :=
  rcat [.wb, lit "git", plusC .ws, lit "reset", plusC .ws, lit "--hard", .wb]

/-- `r"\bgit\s+push\s+--force\b"`. -/
def pattern_push_force_long : RE :=
  rcat [.wb, lit "git", plusC .ws, lit "push", plusC .ws, lit "--force", .wb]

/-- `r"\bgit\s+push\s+-f\b"`. -/
def pattern_push_force_short : RE :=
  rcat [.wb, lit "git", plusC .ws, lit "push", plusC .ws, lit "-f", .wb]

/-- `r"\bgit\s+clean\s+-[fd]*f"`. -/
def pattern_clean_force : RE :=
  rcat [.wb, lit "git", plusC .ws, lit "clean", plusC .ws, lit "-", .star (.cls ['f', 'd']),
    .cc (.chr 'f')]

/-- `r"\bgit\s+branch\s+-D\b"`. -/
def pattern_branch_delete : RE :=
  rcat [.wb, lit "git", plusC .ws, lit "branch", plusC .ws, lit "-D", .wb]

/-- `r"\bgit\s+rebase\s+-i\b"`. -/
def pattern_rebase_interactive : RE :=
  rcat [.wb, lit "git", plusC .ws, lit "rebase", plusC .ws, lit "-i", .wb]

/-- `r"\bgit\s+add\s+-[ip]\b"`. -/
def pattern_add_interactive : RE :=
  rcat [.wb, lit "git", plusC .ws, lit "add", plusC .ws, lit "-", .cc (.cls ['i', 'p']), .wb]

/-- The fixed rule table: `(pattern, reason, safe_alternative)`, in source
order. -/
def DANGEROUS_PATTERNS : List (RE × String × String) :=
  [(pattern_stash,
    "git stash hides work from other agents",
    "Use 'git add -A && git commit -m \"WIP: ...\"' instead"),
   (pattern_checkout_path,
    "git checkout -- <file> discards uncommitted changes permanently",
    "Commit your work first: 'git add -A && git commit -m \"WIP: ...\"'"),
   (pattern_checkout_force,
    "git checkout -f discards ALL local changes permanently",
    "Commit your work first: 'git add -A && git commit -m \"WIP: ...\"'"),
   (pattern_checkout_dot,
    "git checkout . discards all changes in the directory",
    "Commit your work first: 'git add -A && git commit -m \"WIP: ...\"'"),
   (pattern_reset_hard,
    "git reset --hard destroys commits AND uncommitted changes",
    "Use 'git reset --soft' to keep changes, or 'git revert' to undo commits"),
   (pattern_push_force_long,
    "git push --force rewrites remote history",
    "Use 'git push' (normal push) or 'git pull --rebase' to sync"),
   (pattern_push_force_short,
    "git push -f rewrites remote history",
    "Use 'git push' (normal push) or 'git pull --rebase' to sync"),
   (pattern_clean_force,
    "git clean -f deletes untracked files permanently",
    "Use 'git clean -n' (dry run) first to see what would be deleted"),
   (pattern_branch_delete,
    "git branch -D force deletes unmerged branch",
    "Use 'git branch -d' (lowercase) which only deletes merged branches"),
   (pattern_rebase_interactive,
    "git rebase -i is interactive and will hang in non-interactive mode",
    "Use 'git reset --soft HEAD~N' to undo commits while keeping changes"),
   (pattern_add_interactive,
    "git add -i/-p is interactive and will hang in non-interactive mode",
    "Use 'git add <files>' or 'git add -A' instead")]

/-- The `for pattern, reason, alternative in …` loop of `check_command`. -/
def checkLoop : List (RE × String × String) → String → Option (Bool × String × String)
  | [], _ => none
  | (p, reason, alternative) :: rest, command =>
    if reSearch p command then some (true, reason, alternative) else checkLoop rest command

/-- `check_command`: first matching rule of the table, with its reason and
alternative, or `none`. -/
def check_command (command : String) : Option (Bool × String × String) :=
  checkLoop DANGEROUS_PATTERNS command

/-- JSON values, as produced by Python's `json.load`. -/
inductive JValue where
  | null : JValue
  | bool : Bool → JValue
  | num : Int → JValue
  | str : String → JValue
  | arr : List JValue → JValue
  | obj : List (String × JValue) → JValue

/-- Python `value.get(key, default)`: on a dict, the stored value or the
default; on anything else, an uncaught `AttributeError`. -/
def jGet : JValue → String → JValue → Except String JValue
  | .obj fields, key, dflt => .ok ((fields.lookup key).getD dflt)
  | _, _, _ => .error "AttributeError"

/-- Python `v == s` for a string literal `s`: true exactly when `v` is that
string. -/
def jIsStr : JValue → String → Bool
  | .str s, t => s == t
  | _, _ => false

/-- Python `re.search(pattern, command)` when `command` came out of JSON:
works on a string, raises `TypeError` on anything else. -/
def reSearchPy (r : RE) : JValue → Except String Bool
  | .str s => .ok (reSearch r s)
  | _ => .error "TypeError"

/-- The `check_command` loop as `main` actually calls it, on the raw JSON
value of the `command` field. -/
def checkLoopPy : List (RE × String × String) → JValue →
    Except String (Option (Bool × String × String))
  | [], _ => .ok none
  | (p, reason, alternative) :: rest, command =>
    (reSearchPy p command).bind fun b =>
      if b then .ok (some (true, reason, alternative)) else checkLoopPy rest command

def check_command_py (command : JValue) : Except String (Option (Bool × String × String)) :=
  checkLoopPy DANGEROUS_PATTERNS command

/-- The object printed on a deny verdict (the value of
`"hookSpecificOutput"`). -/
structure HookSpecificOutput where
  hookEventName : String
  permissionDecision : String
  permissionDecisionReason : String
deriving DecidableEq

/-- The deny object built in `main` from the matched rule. -/
def mkDenyOutput (reason alternative : String) : HookSpecificOutput :=
  { hookEventName := "PreToolUse"
    permissionDecision := "deny"
    permissionDecisionReason :=
      "[GIT-SAFE BLOCKED] " ++ reason ++ "\n\n" ++
      "Safe alternative: " ++ alternative ++ "\n\n" ++
      "NO BYPASS EXISTS. Use the safe alternative above." }

/-- `main`.  Arguments: the value of `ZEROSHOT_WORKTREE` (`none` = unset) and
the parse of stdin (`none` = `json.JSONDecodeError`).  Result: `.ok none` for
exit 0 with no output, `.ok (some out)` for exit 0 printing the deny object,
`.error e` for an uncaught Python exception. -/
def mainGate (envWorktree : Option String) (stdin : Option JValue) :
    Except String (Option HookSpecificOutput) :=
  if envWorktree ≠ some "1" then .ok none
  else match stdin with
    | none => .ok none
    | some input_data =>
      (jGet input_data "tool_name" (.str "")).bind fun tool_name =>
      if !jIsStr tool_name "Bash" then .ok none
      else
        (jGet input_data "tool_input" (.obj [])).bind fun tool_input =>
        (jGet tool_input "command" (.str "")).bind fun command =>
        (check_command_py command).map fun result =>
          match result with
          | some (_, reason, alternative) => some (mkDenyOutput reason alternative)
          | none => none

/-- A well-formed Bash request carrying the given command string. -/
def bashInput (command : String) : JValue :=
  .obj [("tool_name", .str "Bash"), ("tool_input", .obj [("command", .str command)])]

/-- Does the pattern contain the end anchor `$`? -/
def noEos : RE → Bool
  | .eos => false
  | .seq a b => noEos a && noEos b
  | _ => true

/-- Does the pattern necessarily consume a `\s` character? -/
def needsWs : RE → Bool
  | .cc .ws => true
  | .seq a b => needsWs a || needsWs b
  | _ => false

/-- The character just before the end of `prev ++ l` (`none` at the string
edge). -/
def lastOpt : Option Char → List Char → Option Char
  | prev, [] => prev
  | _, c :: rest => lastOpt (some c) rest

/-- Does a flag cluster, read from just after the `-`, reach an `f` through
`f`/`d` letters only?  This is exactly what `-[fd]*f` accepts of the cluster. -/
def reachesF : List Char → Bool
  | [] => false
  | c :: rest => if c = 'f' then true else if c = 'd' then reachesF rest else false

/-! ### Shared lemmas about the matcher -/

theorem checkLoopPy_str (l : List (RE × String × String)) (s : String) :
    checkLoopPy l (.str s) = .ok (checkLoop l s) := by
  induction l with
  | nil => rfl
  | cons hd tl ih =>
    obtain ⟨p, reason, alternative⟩ := hd
    simp only [checkLoopPy, checkLoop, reSearchPy, Except.bind]
    by_cases h : reSearch p s <;> simp [h, ih]

theorem mainGate_bash (command : JValue) :
    mainGate (some "1")
      (some (.obj [("tool_name", .str "Bash"), ("tool_input", .obj [("command", command)])])) =
    (check_command_py command).map fun result =>
      match result with
      | some (_, reason, alternative) => some (mkDenyOutput reason alternative)
      | none => none := rfl

theorem mainGate_eval (command : String) :
    mainGate (some "1") (some (bashInput command)) =
    .ok (match check_command command with
         | some (_, reason, alternative) => some (mkDenyOutput reason alternative)
         | none => none) := by
  show mainGate (some "1")
      (some (.obj [("tool_name", .str "Bash"), ("tool_input", .obj [("command", .str command)])])) = _
  rw [mainGate_bash, check_command_py, checkLoopPy_str]
  rfl

/-- Spot checks of the Unicode tables at non-ASCII points the patterns are
sensitive to: `é` (U+00E9) is a word character, so `\bgit` does not match in
`égit stash`; no-break space (U+00A0) is `\s`, so the clean rule matches
`git clean -q<nbsp>git<nbsp>clean<nbsp>-f` through its inner occurrence. -/
theorem unicode_table_checks :
    isWordChar '\u00E9' = true ∧ isPySpace '\u00A0' = true ∧
    reSearch pattern_stash "\u00E9git stash" = false ∧
    reSearch pattern_stash "git stash" = true ∧
    reSearch pattern_clean_force "git clean -q\u00A0git\u00A0clean\u00A0-f" = true :=
  ⟨by decide, by decide, by decide, by decide, by decide⟩

theorem matchHere_searchFrom (r : RE) (prev : Option Char) (l : List Char)
    (h : matchHere r prev l = true) : searchFrom r prev l = true := by
  cases l <;> simp [searchFrom, h]

theorem searchFrom_append_left (r : RE) :
    ∀ (l1 l2 : List Char) (prev : Option Char),
      searchFrom r (lastOpt prev l1) l2 = true → searchFrom r prev (l1 ++ l2) = true := by
  intro l1
  induction l1 with
  | nil => intro l2 prev h; simpa [lastOpt] using h
  | cons c rest ih =>
    intro l2 prev h
    show searchFrom r prev (c :: (rest ++ l2)) = true
    have h' : searchFrom r (some c) (rest ++ l2) = true := ih l2 (some c) h
    simp [searchFrom, h']

/-- States are interchangeable when they carry the same remaining input and
the same word-ness of the previous character. -/
def stEquiv (a b : Option Char × List Char) : Prop :=
  a.2 = b.2 ∧ isWordOpt a.1 = isWordOpt b.1

theorem forall2_append {R : α → α → Prop} :
    ∀ {l1 l2 u1 u2 : List α}, List.Forall₂ R l1 l2 → List.Forall₂ R u1 u2 →
      List.Forall₂ R (l1 ++ u1) (l2 ++ u2) := by
  intro l1 l2 u1 u2 h hu
  induction h with
  | nil => simpa using hu
  | cons hab _ ih => exact List.Forall₂.cons hab ih

theorem forall2_flatMap {R : α → α → Prop} {f g : α → List α}
    (hfg : ∀ a b, R a b → List.Forall₂ R (f a) (g b)) :
    ∀ {l1 l2 : List α}, List.Forall₂ R l1 l2 →
      List.Forall₂ R (l1.flatMap f) (l2.flatMap g) := by
  intro l1 l2 h
  induction h with
  | nil => simp
  | cons hab h ih => simpa using forall2_append (hfg _ _ hab) ih

theorem runRE_prev_congr (r : RE) :
    ∀ (p1 p2 : Option Char) (l : List Char), isWordOpt p1 = isWordOpt p2 →
      List.Forall₂ stEquiv (runRE r p1 l) (runRE r p2 l) := by
  induction r with
  | eps =>
    intro p1 p2 l h
    exact .cons ⟨rfl, h⟩ .nil
  | cc c =>
    intro p1 p2 l h
    cases l with
    | nil => exact .nil
    | cons ch rest =>
      by_cases hc : ccMatch c ch = true
      · simp only [runRE, if_pos hc]
        exact .cons ⟨rfl, rfl⟩ .nil
      · simp only [runRE, if_neg hc]
        exact .nil
  | wb =>
    intro p1 p2 l h
    rw [runRE, runRE, h]
    by_cases hb : (isWordOpt p2 != isWordOpt l.head?) = true
    · rw [if_pos hb, if_pos hb]
      exact .cons ⟨rfl, h⟩ .nil
    · rw [if_neg hb, if_neg hb]
      exact .nil
  | eos =>
    intro p1 p2 l h
    rw [runRE, runRE]
    by_cases hb : l = [] ∨ l = ['\n']
    · rw [if_pos hb, if_pos hb]
      exact .cons ⟨rfl, h⟩ .nil
    · rw [if_neg hb, if_neg hb]
      exact .nil
  | seq a b iha ihb =>
    intro p1 p2 l h
    rw [runRE, runRE]
    refine forall2_flatMap (fun x y hxy => ?_) (iha p1 p2 l h)
    rw [hxy.1]
    exact ihb x.1 y.1 y.2 hxy.2
  | star c =>
    intro p1 p2 l h
    rw [runRE, runRE]
    exact .cons ⟨rfl, h⟩ (List.forall₂_same.2 fun x _ => ⟨rfl, rfl⟩)

theorem matchHere_prev_congr (r : RE) (p1 p2 : Option Char) (l : List Char)
    (h : isWordOpt p1 = isWordOpt p2) : matchHere r p1 l = matchHere r p2 l := by
  have hlen := (runRE_prev_congr r p1 p2 l h).length_eq
  unfold matchHere
  cases h1 : runRE r p1 l <;> cases h2 : runRE r p2 l <;> simp_all

theorem searchFrom_prev_congr (r : RE) (p1 p2 : Option Char) (l : List Char)
    (h : isWordOpt p1 = isWordOpt p2) : searchFrom r p1 l = searchFrom r p2 l := by
  cases l with
  | nil => simpa [searchFrom] using matchHere_prev_congr r p1 p2 [] h
  | cons c rest => simp [searchFrom, matchHere_prev_congr r p1 p2 (c :: rest) h]

theorem starRun_suffix (c : CC) :
    ∀ (l : List Char) (st : Option Char × List Char), st ∈ starRun c l → st.2 <:+ l := by
  intro l
  induction l with
  | nil => intro st h; simp [starRun] at h
  | cons ch rest ih =>
    intro st h
    rw [starRun] at h
    by_cases hc : ccMatch c ch = true
    · rw [if_pos hc] at h
      rcases List.mem_cons.1 h with rfl | h
      · exact List.suffix_cons ch rest
      · exact (ih st h).trans (List.suffix_cons ch rest)
    · rw [if_neg hc] at h
      simp at h

theorem runRE_suffix (r : RE) :
    ∀ (prev : Option Char) (l : List Char) (st : Option Char × List Char),
      st ∈ runRE r prev l → st.2 <:+ l := by
  induction r with
  | eps =>
    intro prev l st h
    simp only [runRE, List.mem_singleton] at h
    rw [h]
  | cc c =>
    intro prev l st h
    cases l with
    | nil => simp [runRE] at h
    | cons ch rest =>
      rw [runRE] at h
      by_cases hc : ccMatch c ch = true
      · rw [if_pos hc] at h
        simp only [List.mem_singleton] at h
        rw [h]
        exact List.suffix_cons ch rest
      · rw [if_neg hc] at h
        simp at h
  | wb =>
    intro prev l st h
    rw [runRE] at h
    by_cases hb : (isWordOpt prev != isWordOpt l.head?) = true
    · rw [if_pos hb] at h
      simp only [List.mem_singleton] at h
      rw [h]
    · rw [if_neg hb] at h
      simp at h
  | eos =>
    intro prev l st h
    rw [runRE] at h
    by_cases hb : l = [] ∨ l = ['\n']
    · rw [if_pos hb] at h
      simp only [List.mem_singleton] at h
      rw [h]
    · rw [if_neg hb] at h
      simp at h
  | seq a b iha ihb =>
    intro prev l st h
    rw [runRE] at h
    rcases List.mem_flatMap.1 h with ⟨st1, h1, h2⟩
    exact (ihb st1.1 st1.2 st h2).trans (iha prev l st1 h1)
  | star c =>
    intro prev l st h
    rw [runRE] at h
    rcases List.mem_cons.1 h with rfl | h
    · exact List.suffix_rfl
    · exact starRun_suffix c l st h

theorem flatMap_eq_nil_of (L : List α) (f : α → List β) (h : ∀ x ∈ L, f x = []) :
    L.flatMap f = [] := by
  induction L with
  | nil => rfl
  | cons a t ih => simp [List.flatMap_cons, h a (by simp), ih fun x hx => h x (by simp [hx])]

theorem runRE_needsWs (r : RE) :
    needsWs r = true → ∀ (prev : Option Char) (l : List Char),
      (∀ c ∈ l, isPySpace c = false) → runRE r prev l = [] := by
  induction r with
  | eps => intro hr; simp [needsWs] at hr
  | cc c =>
    intro hr prev l hl
    cases c <;> simp [needsWs] at hr
    cases l with
    | nil => rfl
    | cons ch rest =>
      rw [runRE, ccMatch, hl ch (by simp)]
      rfl
  | wb => intro hr; simp [needsWs] at hr
  | eos => intro hr; simp [needsWs] at hr
  | seq a b iha ihb =>
    intro hr prev l hl
    have hr' : needsWs a = true ∨ needsWs b = true := by
      rw [needsWs] at hr
      simpa using hr
    rw [runRE]
    rcases hr' with ha | hb
    · rw [iha ha prev l hl]
      rfl
    · refine flatMap_eq_nil_of _ _ fun st hst => ?_
      exact ihb hb st.1 st.2 fun c hc => hl c ((runRE_suffix a prev l st hst).subset hc)
  | star c => intro hr; simp [needsWs] at hr

theorem searchFrom_needsWs (r : RE) (hr : needsWs r = true) :
    ∀ (l : List Char) (prev : Option Char),
      (∀ c ∈ l, isPySpace c = false) → searchFrom r prev l = false := by
  intro l
  induction l with
  | nil => intro prev hl; simp [searchFrom, matchHere, runRE_needsWs r hr prev [] hl]
  | cons c rest ih =>
    intro prev hl
    have h1 := runRE_needsWs r hr prev (c :: rest) hl
    have h2 := ih (some c) fun d hd => hl d (by simp [hd])
    simp [searchFrom, matchHere, h1, h2]

theorem starRun_extend (c : CC) (s : List Char) :
    ∀ (l : List Char) (p : Option Char) (rest : List Char),
      (p, rest) ∈ starRun c l → (p, rest ++ s) ∈ starRun c (l ++ s) := by
  intro l
  induction l with
  | nil => intro p rest h; simp [starRun] at h
  | cons ch t ih =>
    intro p rest h
    rw [starRun] at h
    by_cases hc : ccMatch c ch = true
    · rw [if_pos hc] at h
      rw [List.cons_append, starRun, if_pos hc]
      rcases List.mem_cons.1 h with heq | h
      · injection heq with h1 h2
        subst h1; subst h2
        exact List.mem_cons_self _ _
      · exact List.mem_cons_of_mem _ (ih p rest h)
    · rw [if_neg hc] at h
      simp at h

theorem runRE_extend (s : List Char) :
    ∀ (r : RE), noEos r = true →
      ∀ (prev : Option Char) (l : List Char) (p : Option Char) (rest : List Char),
        (p, rest) ∈ runRE r prev l → (isWordOpt s.head? = false ∨ rest ≠ []) →
        (p, rest ++ s) ∈ runRE r prev (l ++ s) := by
  intro r
  induction r with
  | eps =>
    intro _ prev l p rest h _
    simp only [runRE, List.mem_singleton, Prod.mk.injEq] at h
    obtain ⟨rfl, rfl⟩ := h
    simp [runRE]
  | cc c =>
    intro _ prev l p rest h _
    cases l with
    | nil => simp [runRE] at h
    | cons ch t =>
      rw [runRE] at h
      by_cases hc : ccMatch c ch = true
      · rw [if_pos hc] at h
        simp only [List.mem_singleton, Prod.mk.injEq] at h
        obtain ⟨rfl, rfl⟩ := h
        rw [List.cons_append, runRE, if_pos hc]
        exact List.mem_singleton.2 rfl
      · rw [if_neg hc] at h
        simp at h
  | wb =>
    intro _ prev l p rest h hs
    rw [runRE] at h
    by_cases hb : (isWordOpt prev != isWordOpt l.head?) = true
    · rw [if_pos hb] at h
      simp only [List.mem_singleton, Prod.mk.injEq] at h
      obtain ⟨hp, hrest⟩ := h
      subst hp
      subst hrest
      cases rest with
      | nil =>
        have hs' : isWordOpt s.head? = false := by
          rcases hs with hs | hne
          · exact hs
          · exact absurd rfl hne
        rw [List.nil_append, runRE]
        have hcond : (isWordOpt p != isWordOpt s.head?) = true := by
          rw [hs']
          simpa [isWordOpt] using hb
        rw [if_pos hcond]
        exact List.mem_singleton.2 rfl
      | cons ch t =>
        rw [List.cons_append, runRE]
        have hcond : (isWordOpt p != isWordOpt ((ch :: (t ++ s)).head?)) = true := by
          simpa using hb
        rw [if_pos hcond]
        exact List.mem_singleton.2 rfl
    · rw [if_neg hb] at h
      simp at h
  | eos => intro hr; simp [noEos] at hr
  | seq a b iha ihb =>
    intro hr prev l p rest h hs
    obtain ⟨ha, hb⟩ : noEos a = true ∧ noEos b = true := by
      rw [noEos] at hr
      simpa using hr
    rw [runRE] at h
    rcases List.mem_flatMap.1 h with ⟨st1, h1, h2⟩
    have hs1 : isWordOpt s.head? = false ∨ st1.2 ≠ [] := by
      rcases hs with hs | hne
      · exact Or.inl hs
      · refine Or.inr fun hnil => hne ?_
        have := runRE_suffix b st1.1 st1.2 (p, rest) h2
        rw [hnil] at this
        exact List.suffix_nil.1 this
    have h1' : (st1.1, st1.2 ++ s) ∈ runRE a prev (l ++ s) := iha ha prev l st1.1 st1.2 (by simpa using h1) hs1
    have h2' : (p, rest ++ s) ∈ runRE b st1.1 (st1.2 ++ s) := ihb hb st1.1 st1.2 p rest h2 hs
    rw [runRE]
    exact List.mem_flatMap.2 ⟨(st1.1, st1.2 ++ s), h1', h2'⟩
  | star c =>
    intro _ prev l p rest h _
    rw [runRE] at h
    rcases List.mem_cons.1 h with heq | h
    · injection heq with h1 h2
      subst h1; subst h2
      rw [runRE]
      exact List.mem_cons_self _ _
    · rw [runRE]
      exact List.mem_cons_of_mem _ (starRun_extend c s l p rest h)

theorem matchHere_of_mem (r : RE) (prev : Option Char) (l : List Char)
    (st : Option Char × List Char) (h : st ∈ runRE r prev l) : matchHere r prev l = true := by
  have hne := List.ne_nil_of_mem h
  unfold matchHere
  cases hrr : runRE r prev l with
  | nil => exact absurd hrr hne
  | cons a t => rfl

theorem matchHere_extend (r : RE) (hr : noEos r = true) (s : List Char)
    (hs : isWordOpt s.head? = false) (prev : Option Char) (l : List Char)
    (h : matchHere r prev l = true) : matchHere r prev (l ++ s) = true := by
  unfold matchHere at h
  cases hrr : runRE r prev l with
  | nil => rw [hrr] at h; simp at h
  | cons st t =>
    have hmem : (st.1, st.2) ∈ runRE r prev l := by
      rw [hrr]
      exact List.mem_cons_self _ _
    exact matchHere_of_mem r prev (l ++ s) _
      (runRE_extend s r hr prev l st.1 st.2 hmem (Or.inl hs))

theorem searchFrom_extend (r : RE) (hr : noEos r = true) (s : List Char)
    (hs : isWordOpt s.head? = false) :
    ∀ (l : List Char) (prev : Option Char),
      searchFrom r prev l = true → searchFrom r prev (l ++ s) = true := by
  intro l
  induction l with
  | nil =>
    intro prev h
    have h' : matchHere r prev [] = true := h
    have := matchHere_extend r hr s hs prev [] h'
    rw [List.nil_append] at this
    exact matchHere_searchFrom r prev s this
  | cons c rest ih =>
    intro prev h
    rw [searchFrom] at h
    have h' : matchHere r prev (c :: rest) = true ∨ searchFrom r (some c) rest = true := by
      simpa using h
    rw [List.cons_append, searchFrom]
    rcases h' with h1 | h2
    · have := matchHere_extend r hr s hs prev (c :: rest) h1
      rw [List.cons_append] at this
      simp [this]
    · simp [ih (some c) h2]

theorem reSearch_prepend (r : RE) (pre cmd : String)
    (hpre : isWordOpt (lastOpt none pre.data) = false)
    (h : reSearch r cmd = true) : reSearch r (pre ++ cmd) = true := by
  unfold reSearch at h ⊢
  rw [String.data_append]
  refine searchFrom_append_left r pre.data cmd.data none ?_
  rw [searchFrom_prev_congr r (lastOpt none pre.data) none cmd.data (by rw [hpre]; rfl)]
  exact h

theorem reSearch_append (r : RE) (hr : noEos r = true) (cmd suf : String)
    (hs : isWordOpt suf.data.head? = false) (h : reSearch r cmd = true) :
    reSearch r (cmd ++ suf) = true := by
  unfold reSearch at h ⊢
  rw [String.data_append]
  exact searchFrom_extend r hr suf.data hs cmd.data none h

theorem checkLoop_first :
    ∀ (l : List (RE × String × String)) (cmd : String) (i : Nat) (h : i < l.length),
      (∀ j, (hj : j < i) → reSearch (l.get ⟨j, Nat.lt_trans hj h⟩).1 cmd = false) →
      reSearch (l.get ⟨i, h⟩).1 cmd = true →
      checkLoop l cmd = some (true, (l.get ⟨i, h⟩).2.1, (l.get ⟨i, h⟩).2.2) := by
  intro l
  induction l with
  | nil => intro cmd i h; exact absurd h (by simp)
  | cons hd tl ih =>
    intro cmd i h hbef hmat
    obtain ⟨p, reason, alternative⟩ := hd
    cases i with
    | zero =>
      have hm : reSearch p cmd = true := hmat
      simp [checkLoop, hm]
    | succ i' =>
      have h0 : reSearch p cmd = false := hbef 0 (Nat.succ_pos i')
      have htl := ih cmd i' (Nat.lt_of_succ_lt_succ h)
        (fun j hj => hbef (j + 1) (Nat.succ_lt_succ hj)) hmat
      simp [checkLoop, h0]
      exact htl

/-- The kernel of the clean rule after its concrete prefix has been
consumed: `-[fd]*f` applied past the `-`. -/
theorem runRE_clean_front (cl : List Char) :
    runRE pattern_clean_force none
      ('g' :: 'i' :: 't' :: ' ' :: 'c' :: 'l' :: 'e' :: 'a' :: 'n' :: ' ' :: '-' :: cl) =
    runRE (.seq (.star (.cls ['f', 'd'])) (.seq (.cc (.chr 'f')) .eps)) (some '-') cl := by
  simp +decide [pattern_clean_force, rcat, lit, litL, plusC, runRE, starRun, ccMatch,
    isWordOpt, isWordChar, isPySpace, List.flatMap]

theorem matchHere_fdtail (prev : Option Char) (cl : List Char) :
    matchHere (.seq (.star (.cls ['f', 'd'])) (.seq (.cc (.chr 'f')) .eps)) prev cl =
    reachesF cl := by
  induction cl generalizing prev with
  | nil => rfl
  | cons c rest ih =>
    by_cases hf : c = 'f'
    · subst hf
      simp [matchHere, runRE, starRun, ccMatch, reachesF]
    · by_cases hd : c = 'd'
      · subst hd
        simp only [reachesF, if_neg (by decide : ¬('d' = 'f')), if_pos rfl]
        rw [← ih (some 'd')]
        simp [matchHere, runRE, starRun, ccMatch]
      · simp [matchHere, runRE, starRun, ccMatch, reachesF, hf, hd]

set_option maxHeartbeats 1600000 in
theorem searchFrom_clean (cl : List Char) (hcl : ∀ c ∈ cl, isPySpace c = false) :
    searchFrom pattern_clean_force none
      ('g' :: 'i' :: 't' :: ' ' :: 'c' :: 'l' :: 'e' :: 'a' :: 'n' :: ' ' :: '-' :: cl) = reachesF cl := by
  have hm0 : matchHere pattern_clean_force none
      ('g' :: 'i' :: 't' :: ' ' :: 'c' :: 'l' :: 'e' :: 'a' :: 'n' :: ' ' :: '-' :: cl) = reachesF cl := by
    unfold matchHere
    rw [runRE_clean_front]
    exact matchHere_fdtail (some '-') cl
  have m1 : matchHere pattern_clean_force (some 'g')
      ('i' :: 't' :: ' ' :: 'c' :: 'l' :: 'e' :: 'a' :: 'n' :: ' ' :: '-' :: cl) = false := by
    simp +decide [pattern_clean_force, rcat, lit, litL, plusC, matchHere, runRE, starRun,
      ccMatch, isWordOpt, isWordChar, isPySpace, List.flatMap]
  have m2 : matchHere pattern_clean_force (some 'i')
      ('t' :: ' ' :: 'c' :: 'l' :: 'e' :: 'a' :: 'n' :: ' ' :: '-' :: cl) = false := by
    simp +decide [pattern_clean_force, rcat, lit, litL, plusC, matchHere, runRE, starRun,
      ccMatch, isWordOpt, isWordChar, isPySpace, List.flatMap]
  have m3 : matchHere pattern_clean_force (some 't')
      (' ' :: 'c' :: 'l' :: 'e' :: 'a' :: 'n' :: ' ' :: '-' :: cl) = false := by
    simp +decide [pattern_clean_force, rcat, lit, litL, plusC, matchHere, runRE, starRun,
      ccMatch, isWordOpt, isWordChar, isPySpace, List.flatMap]
  have m4 : matchHere pattern_clean_force (some ' ')
      ('c' :: 'l' :: 'e' :: 'a' :: 'n' :: ' ' :: '-' :: cl) = false := by
    simp +decide [pattern_clean_force, rcat, lit, litL, plusC, matchHere, runRE, starRun,
      ccMatch, isWordOpt, isWordChar, isPySpace, List.flatMap]
  have m5 : matchHere pattern_clean_force (some 'c')
      ('l' :: 'e' :: 'a' :: 'n' :: ' ' :: '-' :: cl) = false := by
    simp +decide [pattern_clean_force, rcat, lit, litL, plusC, matchHere, runRE, starRun,
      ccMatch, isWordOpt, isWordChar, isPySpace, List.flatMap]
  have m6 : matchHere pattern_clean_force (some 'l')
      ('e' :: 'a' :: 'n' :: ' ' :: '-' :: cl) = false := by
    simp +decide [pattern_clean_force, rcat, lit, litL, plusC, matchHere, runRE, starRun,
      ccMatch, isWordOpt, isWordChar, isPySpace, List.flatMap]
  have m7 : matchHere pattern_clean_force (some 'e')
      ('a' :: 'n' :: ' ' :: '-' :: cl) = false := by
    simp +decide [pattern_clean_force, rcat, lit, litL, plusC, matchHere, runRE, starRun,
      ccMatch, isWordOpt, isWordChar, isPySpace, List.flatMap]
  have m8 : matchHere pattern_clean_force (some 'a')
      ('n' :: ' ' :: '-' :: cl) = false := by
    simp +decide [pattern_clean_force, rcat, lit, litL, plusC, matchHere, runRE, starRun,
      ccMatch, isWordOpt, isWordChar, isPySpace, List.flatMap]
  have m9 : matchHere pattern_clean_force (some 'n')
      (' ' :: '-' :: cl) = false := by
    simp +decide [pattern_clean_force, rcat, lit, litL, plusC, matchHere, runRE, starRun,
      ccMatch, isWordOpt, isWordChar, isPySpace, List.flatMap]
  have m10 : matchHere pattern_clean_force (some ' ')
      ('-' :: cl) = false := by
    simp +decide [pattern_clean_force, rcat, lit, litL, plusC, matchHere, runRE, starRun,
      ccMatch, isWordOpt, isWordChar, isPySpace, List.flatMap]
  have htail : searchFrom pattern_clean_force (some '-') cl = false :=
    searchFrom_needsWs pattern_clean_force (by decide) cl (some '-') hcl
  simp only [searchFrom]
  rw [hm0, m1, m2, m3, m4, m5, m6, m7, m8, m9, m10, htail]
  simp

/-- Any command that contains `git push --force-with-lease` right after a
non-word character (or at the very start) is matched by the long-form
force-push pattern: its trailing `\b` is satisfied at the hyphen after
`force`. -/
theorem reSearch_p6_lease (pre suf : String)
    (hpre : isWordOpt (lastOpt none pre.data) = false) :
    reSearch pattern_push_force_long (pre ++ "git push --force-with-lease" ++ suf) = true := by
  have hrun : runRE pattern_push_force_long none ("git push --force-with-lease".data) =
      [(some 'e', "-with-lease".data)] := by decide
  have hmem : ((some 'e' : Option Char), "-with-lease".data) ∈
      runRE pattern_push_force_long none ("git push --force-with-lease".data) := by
    rw [hrun]
    exact List.mem_singleton.2 rfl
  have hext := runRE_extend suf.data pattern_push_force_long (by decide) none
    ("git push --force-with-lease".data) (some 'e') ("-with-lease".data) hmem
    (Or.inr (by decide))
  have hmh : matchHere pattern_push_force_long none
      ("git push --force-with-lease".data ++ suf.data) = true :=
    matchHere_of_mem _ _ _ _ hext
  have hmh2 : matchHere pattern_push_force_long (lastOpt none pre.data)
      ("git push --force-with-lease".data ++ suf.data) = true := by
    rw [matchHere_prev_congr pattern_push_force_long (lastOpt none pre.data) none _
      (by rw [hpre]; rfl)]
    exact hmh
  have hsf : searchFrom pattern_push_force_long none
      (pre.data ++ ("git push --force-with-lease".data ++ suf.data)) = true :=
    searchFrom_append_left _ pre.data _ none (matchHere_searchFrom _ _ _ hmh2)
  unfold reSearch
  rw [String.data_append, String.data_append, List.append_assoc]
  exact hsf

/-! ### Claim theorems -/

/-- Claim C1: whenever `ZEROSHOT_WORKTREE` is not exactly `"1"` (unset
included), the gate returns no decision and writes nothing, whatever the
request holds. -/
theorem c1_inactive_passthrough (env : Option String) (stdin : Option JValue)
    (h : env ≠ some "1") : mainGate env stdin = .ok none := by
  simp [mainGate, h]

/-- Witness for C1 at a concrete inactive flag and a dangerous command. -/
theorem c1_inactive_passthrough_witness :
    mainGate (some "0") (some (bashInput "git reset --hard")) = .ok none :=
  c1_inactive_passthrough (some "0") (some (bashInput "git reset --hard")) (by decide)

/-- Claim C3, the code's actual behaviour at the failing input: an absent
`command` field is treated as the empty string and passes through, but a
non-string `command` value reaches `re.search` and raises an uncaught
`TypeError` instead of being treated as empty. -/
theorem c3_nonstring_command_crash :
    mainGate (some "1")
      (some (.obj [("tool_name", .str "Bash"), ("tool_input", .obj [("command", .num 42)])])) =
      .error "TypeError" ∧
    mainGate (some "1")
      (some (.obj [("tool_name", .str "Bash"), ("tool_input", .obj [])])) = .ok none :=
  ⟨rfl, rfl⟩

/-- Claim C6, the code's actual behaviour at the failing input: a payload
whose top level is not an object (here the array `[1, 2, 3]`) makes
`input_data.get` raise an uncaught `AttributeError`, so the process does not
complete successfully. -/
theorem c6_nonobject_payload_crash :
    mainGate (some "1") (some (.arr [.num 1, .num 2, .num 3])) = .error "AttributeError" := rfl

/-- Claim C7: when stdin does not parse as JSON, the gate returns no decision
with no output and no crash, whatever the activation flag. -/
theorem c7_malformed_input_passthrough (env : Option String) :
    mainGate env none = .ok none := by
  by_cases h : env = some "1" <;> simp [mainGate, h]

/-- Witness for C7 with the gate active. -/
theorem c7_malformed_input_passthrough_witness : mainGate (some "1") none = .ok none :=
  c7_malformed_input_passthrough (some "1")

/-- Claim C2: rules are evaluated in fixed table order; the first rule whose
matcher succeeds determines the verdict, and the deny message carries the
reason and alternative of the earliest matching rule. -/
theorem c2_first_match_wins (cmd : String) (i : Nat) (h : i < DANGEROUS_PATTERNS.length)
    (hbefore : ∀ j, (hj : j < i) →
      reSearch (DANGEROUS_PATTERNS.get ⟨j, Nat.lt_trans hj h⟩).1 cmd = false)
    (hmatch : reSearch (DANGEROUS_PATTERNS.get ⟨i, h⟩).1 cmd = true) :
    check_command cmd =
      some (true, (DANGEROUS_PATTERNS.get ⟨i, h⟩).2.1, (DANGEROUS_PATTERNS.get ⟨i, h⟩).2.2) ∧
    mainGate (some "1") (some (bashInput cmd)) =
      .ok (some (mkDenyOutput (DANGEROUS_PATTERNS.get ⟨i, h⟩).2.1
        (DANGEROUS_PATTERNS.get ⟨i, h⟩).2.2)) := by
  have hc := checkLoop_first DANGEROUS_PATTERNS cmd i h hbefore hmatch
  refine ⟨hc, ?_⟩
  rw [mainGate_eval, show check_command cmd = _ from hc]

/-- Witness for C2: `git stash && git push --force` matches both the stash
rule (index 0) and the force-push rule, and the verdict carries the stash
rule's reason and alternative. -/
theorem c2_first_match_wins_witness :
    check_command "git stash && git push --force" =
      some (true, "git stash hides work from other agents",
        "Use 'git add -A && git commit -m \"WIP: ...\"' instead") ∧
    mainGate (some "1") (some (bashInput "git stash && git push --force")) =
      .ok (some (mkDenyOutput "git stash hides work from other agents"
        "Use 'git add -A && git commit -m \"WIP: ...\"' instead")) :=
  c2_first_match_wins "git stash && git push --force" 0 (by decide)
    (fun j hj => absurd hj (Nat.not_lt_zero j)) (by decide)

/-- Counterexample to claim C4 as stated: the checkout-of-current-directory
rule's shape occurs in `git checkout . && git log` followed by a chained
operator, yet the rule does not match it (its pattern is anchored with `$`),
and no rule matches the command at all. -/
theorem c4_counterexample :
    ("git checkout .".data <:+: "git checkout . && git log".data) ∧
    reSearch pattern_checkout_dot "git checkout . && git log" = false ∧
    reSearch pattern_checkout_dot "git checkout ." = true ∧
    check_command "git checkout . && git log" = none :=
  ⟨by decide, by decide, by decide, rfl⟩

/-- Claim C4 amended: matching is substring/anywhere-in-command, not
full-command equality — every rule's match survives prepending a prefix that
ends in a non-word character, and every rule except the
checkout-of-current-directory rule (the only one with an end anchor) also
survives appending further text that begins with a non-word character. -/
theorem c4_amended_matching :
    ∀ p ∈ DANGEROUS_PATTERNS.map Prod.fst,
      (∀ pre cmd : String, isWordOpt (lastOpt none pre.data) = false →
        reSearch p cmd = true → reSearch p (pre ++ cmd) = true) ∧
      (noEos p = true ↔ p ≠ pattern_checkout_dot) ∧
      (∀ cmd suf : String, noEos p = true → isWordOpt suf.data.head? = false →
        reSearch p cmd = true → reSearch p (cmd ++ suf) = true) := by
  intro p hp
  refine ⟨fun pre cmd h1 h2 => reSearch_prepend p pre cmd h1 h2, ?_,
    fun cmd suf hr hs h => reSearch_append p hr cmd suf hs h⟩
  simp only [DANGEROUS_PATTERNS, List.map_cons, List.map_nil, List.mem_cons,
    List.not_mem_nil, or_false] at hp
  rcases hp with rfl | rfl | rfl | rfl | rfl | rfl | rfl | rfl | rfl | rfl | rfl <;> decide

/-- Witness for C4 at the stash rule: a match survives a path prefix and a
piped suffix. -/
theorem c4_amended_matching_witness :
    reSearch pattern_stash ("cd /tmp && " ++ "git stash") = true ∧
    reSearch pattern_stash ("git stash" ++ " | tee log") = true :=
  ⟨(c4_amended_matching pattern_stash (by decide)).1 "cd /tmp && " "git stash"
      (by decide) (by decide),
   (c4_amended_matching pattern_stash (by decide)).2.2 "git stash" " | tee log"
      (by decide) (by decide) (by decide)⟩

/-- Counterexample to claim C5 as stated: a command containing
`git branch -d feature-x` can still match the branch-deletion rule (through
other content), and a command containing `git branch -D feature-x` can fail
to match it (no word boundary before `git`). -/
theorem c5_counterexample :
    ("git branch -d feature-x".data <:+: "git branch -D temp && git branch -d feature-x".data) ∧
    reSearch pattern_branch_delete "git branch -D temp && git branch -d feature-x" = true ∧
    ("git branch -D feature-x".data <:+: "mygit branch -D feature-x".data) ∧
    reSearch pattern_branch_delete "mygit branch -D feature-x" = false :=
  ⟨by decide, by decide, by decide, by decide⟩

/-- Claim C5 amended: matching is case-sensitive — the command
`git branch -d feature-x` (lowercase d) matches no rule and passes through,
while `git branch -D feature-x` (uppercase D) matches the branch-deletion
rule and is denied with its reason and alternative. -/
theorem c5_amended_case_sensitive :
    reSearch pattern_branch_delete "git branch -d feature-x" = false ∧
    reSearch pattern_branch_delete "git branch -D feature-x" = true ∧
    mainGate (some "1") (some (bashInput "git branch -d feature-x")) = .ok none ∧
    mainGate (some "1") (some (bashInput "git branch -D feature-x")) =
      .ok (some (mkDenyOutput "git branch -D force deletes unmerged branch"
        "Use 'git branch -d' (lowercase) which only deletes merged branches")) :=
  ⟨by decide, by decide, rfl, rfl⟩

/-- Claim C8: whenever a rule matches (flag `"1"`, tool `Bash`), the gate
emits exactly one deny object whose reason deterministically embeds the
fixed marker, the rule's reason, the rule's alternative, and the fixed
no-override closing; in particular `git push --force origin main` is denied
with a message containing `rewrites remote history` and `Use 'git push'`. -/
theorem c8_deny_message :
    (∀ (cmd reason alternative : String) (b : Bool),
      check_command cmd = some (b, reason, alternative) →
      mainGate (some "1") (some (bashInput cmd)) = .ok (some (mkDenyOutput reason alternative)) ∧
      (mkDenyOutput reason alternative).permissionDecision = "deny" ∧
      (mkDenyOutput reason alternative).permissionDecisionReason =
        "[GIT-SAFE BLOCKED] " ++ reason ++ "\n\n" ++
        "Safe alternative: " ++ alternative ++ "\n\n" ++
        "NO BYPASS EXISTS. Use the safe alternative above.") ∧
    (mainGate (some "1") (some (bashInput "git push --force origin main")) =
      .ok (some (mkDenyOutput "git push --force rewrites remote history"
        "Use 'git push' (normal push) or 'git pull --rebase' to sync")) ∧
    ("rewrites remote history".data <:+:
      (mkDenyOutput "git push --force rewrites remote history"
        "Use 'git push' (normal push) or 'git pull --rebase' to sync").permissionDecisionReason.data) ∧
    ("Use 'git push'".data <:+:
      (mkDenyOutput "git push --force rewrites remote history"
        "Use 'git push' (normal push) or 'git pull --rebase' to sync").permissionDecisionReason.data)) := by
  refine ⟨fun cmd reason alternative b hcc => ⟨?_, rfl, rfl⟩, rfl, by decide, by decide⟩
  rw [mainGate_eval, show check_command cmd = _ from hcc]

/-- Witness for C8 at `git stash`. -/
theorem c8_deny_message_witness :
    mainGate (some "1") (some (bashInput "git stash")) =
      .ok (some (mkDenyOutput "git stash hides work from other agents"
        "Use 'git add -A && git commit -m \"WIP: ...\"' instead")) :=
  (c8_deny_message.1 "git stash" "git stash hides work from other agents"
    "Use 'git add -A && git commit -m \"WIP: ...\"' instead" true rfl).1

/-- Counterexample to claim C9 as stated: `mygit push --force-with-lease`
contains `git push --force-with-lease` yet matches no rule, so the gate
returns no decision rather than a deny. -/
theorem c9_counterexample :
    ("git push --force-with-lease".data <:+: "mygit push --force-with-lease".data) ∧
    check_command "mygit push --force-with-lease" = none ∧
    mainGate (some "1") (some (bashInput "mygit push --force-with-lease")) = .ok none :=
  ⟨by decide, rfl, rfl⟩

/-- Claim C9 amended: every command containing `git push --force-with-lease`
right after a non-word character (or at the start), and matching none of the
five earlier rules, is denied with the long-form force-push rule's reason and
alternative — the pattern's trailing `\b` is satisfied at the hyphen after
`force`, so `--force-with-lease` is blocked exactly like `--force`. -/
theorem c9_amended_force_with_lease (pre suf : String)
    (hpre : isWordOpt (lastOpt none pre.data) = false)
    (h1 : reSearch pattern_stash (pre ++ "git push --force-with-lease" ++ suf) = false)
    (h2 : reSearch pattern_checkout_path (pre ++ "git push --force-with-lease" ++ suf) = false)
    (h3 : reSearch pattern_checkout_force (pre ++ "git push --force-with-lease" ++ suf) = false)
    (h4 : reSearch pattern_checkout_dot (pre ++ "git push --force-with-lease" ++ suf) = false)
    (h5 : reSearch pattern_reset_hard (pre ++ "git push --force-with-lease" ++ suf) = false) :
    mainGate (some "1") (some (bashInput (pre ++ "git push --force-with-lease" ++ suf))) =
      .ok (some (mkDenyOutput "git push --force rewrites remote history"
        "Use 'git push' (normal push) or 'git pull --rebase' to sync")) := by
  have h6 := reSearch_p6_lease pre suf hpre
  have hcc : check_command (pre ++ "git push --force-with-lease" ++ suf) =
      some (true, "git push --force rewrites remote history",
        "Use 'git push' (normal push) or 'git pull --rebase' to sync") := by
    simp [check_command, DANGEROUS_PATTERNS, checkLoop, h1, h2, h3, h4, h5, h6]
  rw [mainGate_eval, hcc]

/-- Witness for C9: `git push --force-with-lease && git log` is denied with
the long-form force-push message. -/
theorem c9_amended_force_with_lease_witness :
    mainGate (some "1") (some (bashInput ("" ++ "git push --force-with-lease" ++ " && git log"))) =
      .ok (some (mkDenyOutput "git push --force rewrites remote history"
        "Use 'git push' (normal push) or 'git pull --rebase' to sync")) :=
  c9_amended_force_with_lease "" " && git log" (by decide) (by decide) (by decide)
    (by decide) (by decide) (by decide)

/-- Claim C10: over whitespace-free clusters, the clean rule matches
`git clean -<cluster>` exactly when the cluster reaches an `f` through
`f`/`d` letters only; in particular `git clean -xf` matches no rule and the
gate passes it through. -/
theorem c10_clean_characterization :
    (∀ cluster : String, (∀ c ∈ cluster.data, isPySpace c = false) →
      reSearch pattern_clean_force ("git clean -" ++ cluster) = reachesF cluster.data) ∧
    reSearch pattern_clean_force "git clean -xf" = false ∧
    check_command "git clean -xf" = none ∧
    mainGate (some "1") (some (bashInput "git clean -xf")) = .ok none := by
  refine ⟨fun cluster hcl => ?_, by decide, rfl, rfl⟩
  unfold reSearch
  rw [String.data_append]
  exact searchFrom_clean cluster.data hcl

/-- Witness for C10 at the cluster `xf`. -/
theorem c10_clean_characterization_witness :
    reSearch pattern_clean_force ("git clean -" ++ "xf") = reachesF ("xf" : String).data :=
  c10_clean_characterization.1 "xf" (by decide)
